import Mathlib

/-!
Verification of the Pillow weather-card rasterizer of
`astrbot_plugin_douyin` (src/main.py).  The drawing layer is embedded
shallowly: each Pillow call becomes one `DrawOp` record, a render call
becomes the pair (canvas dimensions, ordered list of draw operations),
and font metrics (`draw.textbbox` widths) are an explicit environment
parameter, since they depend on the resolved font.
-/

namespace WeatherCard

/-- An RGB color triple, as the `(r, g, b)` tuples of the source. -/
structure RGB where
  r : Int
  g : Int
  b : Int
deriving DecidableEq, Repr

/-- Font-metric environment: the pixel width `_text_w` (src/main.py:49)
reports for a string at a given requested font size. -/
abbrev Metrics : Type := String → Nat → Nat

/-- One Pillow drawing call.  `gradientPaste` stands for the
sub-image + rounded-mask + paste sequence used for the header band
(src/main.py:82-87 and 173-178), recording all of its parameters. -/
inductive DrawOp where
  | text (x y : Int) (s : String) (size : Nat) (fill : RGB)
  | line (x1 y1 x2 y2 : Int) (fill : RGB) (lineWidth : Nat)
  | roundedRect (x1 y1 x2 y2 : Int) (radius : Nat) (fill : RGB)
  | gradientPaste (x y : Int) (w h : Nat) (c1 c2 : RGB) (cornerRadius : Nat)
deriving DecidableEq, Repr

/-- A finished render: canvas dimensions plus the ordered draw calls,
serialized to the output path by the single trailing `img.save`. -/
structure RenderOutput where
  width : Nat
  height : Nat
  ops : List DrawOp
deriving DecidableEq, Repr

/-! ### Font resolution (src/main.py:25-29) -/

/-- The resolved font: the bundled `DouyinSansBold.otf` at a size, or
Pillow's built-in default font. -/
inductive Font where
  | bundled (size : Nat)
  | default
deriving DecidableEq, Repr

/-- The exception classes caught by `_get_font`'s `except (OSError, IOError)`
clause; a missing or corrupt font file raises one of these. -/
inductive FontLoadError where
  | osError
  | ioError
deriving DecidableEq, Repr

/-- Filesystem state seen by `_get_font`: attempting to load the bundled
font at a size either yields a font or fails with a catchable error. -/
abbrev FontEnv : Type := Nat → Except FontLoadError Font

/-- Embeds `_get_font` (src/main.py:25-29): try the bundled font, and on
any load failure return the built-in default instead of raising. -/
def get_font (env : FontEnv) (size : Nat) : Font :=
  match env size with
  | Except.ok f => f
  | Except.error _ => Font.default

/-! ### Gradient fill (src/main.py:32-40) -/

/-- One color channel of row `i` of `_draw_vgradient` (src/main.py:37-39):
`c1 + (c2 - c1) * i // max(h - 1, 1)`.  Python's `//` is floor division,
i.e. `Int.fdiv`; the divisor is floor-guarded by `max(h - 1, 1)`. -/
def gradChannel (c1 c2 : Int) (h i : Nat) : Int :=
  c1 + Int.fdiv ((c2 - c1) * (i : Int)) ((max (h - 1) 1 : Nat) : Int)

/-- The full row color of `_draw_vgradient` at row `i`. -/
def gradColor (c1 c2 : RGB) (h i : Nat) : RGB :=
  ⟨gradChannel c1.r c2.r h i, gradChannel c1.g c2.g h i, gradChannel c1.b c2.b h i⟩

/-- Embeds `_draw_vgradient` (src/main.py:32-40): one horizontal line per
row of the region, colored by integer interpolation. -/
def draw_vgradient (x1 y1 x2 y2 : Int) (c1 c2 : RGB) : List DrawOp :=
  (List.range (y2 - y1).toNat).map fun (i : Nat) =>
    DrawOp.line x1 (y1 + (i : Int)) x2 (y1 + (i : Int))
      (gradColor c1 c2 (y2 - y1).toNat i) 0

/-- Embeds `_center_text` (src/main.py:43-46): measure the text and place
its left edge at `(canvas_w - tw) // 2`. -/
def center_text (m : Metrics) (s : String) (y : Int) (canvas_w : Nat)
    (size : Nat) (fill : RGB) : DrawOp :=
  DrawOp.text (Int.fdiv ((canvas_w : Int) - (m s size : Int)) 2) y s size fill

/-! ### Now-card data model and layout constants (src/main.py:57-76) -/

/-- One entry of the `alarms` list: either a plain string or a structured
record carrying a `title` field (src/main.py:134 extracts the title). -/
inductive AlarmEntry where
  | str (s : String)
  | titled (title : String)
deriving DecidableEq, Repr

/-- The flat record `_render_weather_now` reads (built at
src/main.py:422-434); all scalar fields are pre-formatted strings. -/
structure NowData where
  path : String
  temperature : String
  feelst : String
  humidity : String
  wind_direction : String
  wind_speed : String
  wind_scale : String
  precipitation : String
  pressure : String
  alarms : List AlarmEntry
  last_update : String
deriving DecidableEq, Repr

/-- `DH = DPAD + 4 * ROW_H + DPAD - 6` (src/main.py:66). -/
def nowDH : Nat := 20 + 4 * 46 + 20 - 6

/-- `alarm_h = (14 + 20 + len(alarms) * 20 + 14) if alarms else 0`
(src/main.py:69). -/
def alarm_h (alarms : List AlarmEntry) : Nat :=
  if alarms.isEmpty then 0 else 14 + 20 + alarms.length * 20 + 14

/-- `detail_y = GRAD_H` (src/main.py:71). -/
def now_detail_y : Nat := 190

/-- `alarm_y = detail_y + DH + 12` (src/main.py:72). -/
def now_alarm_y : Nat := now_detail_y + nowDH + 12

/-- `footer_y = (alarm_y + alarm_h if alarms else detail_y + DH) + 16`
(src/main.py:73). -/
def now_footer_y (alarms : List AlarmEntry) : Nat :=
  (if alarms.isEmpty then now_detail_y + nowDH else now_alarm_y + alarm_h alarms) + 16

/-- `card_h = footer_y + 20 + 24` (src/main.py:74). -/
def now_card_h (alarms : List AlarmEntry) : Nat :=
  now_footer_y alarms + 20 + 24

/-- `H = 20 + card_h + 20` (src/main.py:75): the now-card canvas height. -/
def nowH (alarms : List AlarmEntry) : Nat :=
  20 + now_card_h alarms + 20

/-! ### Now-card drawing (src/main.py:78-148) -/

/-- The four label/value detail rows (src/main.py:101-109); values are
the f-string concatenations of the source. -/
def now_rows (d : NowData) : List (String × String) :=
  [("湿度", d.humidity ++ "%"),
   ("风况", d.wind_direction ++ " " ++ d.wind_speed ++ "m/s " ++ d.wind_scale),
   ("降水", d.precipitation ++ "mm"),
   ("气压", d.pressure ++ "hPa")]

/-- The x coordinate of a right-aligned detail value
(src/main.py:115): `DX + DW - 24 - vw` with `DX = 36`, `DW = 328`. -/
def detail_value_x (m : Metrics) (value : String) : Int :=
  36 + 328 - 24 - (m value 15 : Int)

/-- The detail-row loop (src/main.py:112-122): label, right-aligned
value, and a hairline separator after every row but the last; `ry`
advances by `ROW_H = 46` per row. -/
def detail_rows_ops (m : Metrics) (rows : List (String × String))
    (i : Nat) (total : Nat) (ry : Int) : List DrawOp :=
  match rows with
  | [] => []
  | (label, value) :: rest =>
    DrawOp.text (36 + 24) (ry + 13) label 14 ⟨153, 153, 153⟩ ::
    DrawOp.text (detail_value_x m value) (ry + 12) value 15 ⟨51, 51, 51⟩ ::
    ((if i < total - 1 then
        [DrawOp.line (36 + 16) (ry + 46 - 1) (36 + 328 - 16) (ry + 46 - 1)
          ⟨240, 240, 245⟩ 1]
      else []) ++
     detail_rows_ops m rest (i + 1) total (ry + 46))

/-- The text drawn for one alarm entry (src/main.py:134): the entry
itself when it is a string, otherwise its `title` field. -/
def alarmText : AlarmEntry → String
  | AlarmEntry.str s => s
  | AlarmEntry.titled t => t

/-- The alarm-line loop (src/main.py:133-135): for the `j`-th alarm
(counting from `j0`), one text line at `(DX + 18, ay + 38 + j * 20)`. -/
def alarm_line_ops (alarms : List AlarmEntry) (ay : Int) (j0 : Nat) : List DrawOp :=
  match alarms with
  | [] => []
  | a :: rest =>
    DrawOp.text (36 + 18) (ay + 38 + (j0 : Int) * 20) (alarmText a) 12
      ⟨191, 54, 12⟩ :: alarm_line_ops rest ay (j0 + 1)

/-- The alarm section (src/main.py:125-135): drawn only when the alarm
list is non-empty, at `ay = card_y + alarm_y`. -/
def alarm_section_ops (d : NowData) : List DrawOp :=
  if d.alarms.isEmpty then [] else
    DrawOp.roundedRect 36 ((20 + now_alarm_y : Nat) : Int) (36 + 328)
      (((20 + now_alarm_y : Nat) : Int) + (alarm_h d.alarms : Int)) 12 ⟨255, 243, 224⟩ ::
    DrawOp.text (36 + 18) (((20 + now_alarm_y : Nat) : Int) + 14) "预警信息" 13 ⟨230, 81, 0⟩ ::
    alarm_line_ops d.alarms ((20 + now_alarm_y : Nat) : Int) 0

/-- Embeds `_render_weather_now` (src/main.py:57-148): canvas 400 wide,
height `H` from the alarm count, and the draw calls in source order
(gradient paste, three centered header lines, detail panel and rows,
optional alarm section, centered footer). -/
def render_weather_now (m : Metrics) (d : NowData) : RenderOutput :=
  { width := 400
    height := nowH d.alarms
    ops :=
      DrawOp.gradientPaste 20 20 360 190 ⟨79, 172, 254⟩ ⟨30, 144, 255⟩ 24 ::
      center_text m d.path (20 + 45) 400 14 ⟨230, 235, 245⟩ ::
      center_text m (d.temperature ++ "°") (20 + 70) 400 64 ⟨255, 255, 255⟩ ::
      center_text m ("体感 " ++ d.feelst ++ "°C") (20 + 148) 400 14 ⟨230, 235, 245⟩ ::
      DrawOp.roundedRect 36 210 (36 + 328) (210 + (nowDH : Int)) 16 ⟨255, 255, 255⟩ ::
      (detail_rows_ops m (now_rows d) 0 (now_rows d).length (210 + 20) ++
       alarm_section_ops d ++
       [center_text m ("更新: " ++ d.last_update ++ " | 数据来源: 中国气象局")
          ((20 + now_footer_y d.alarms : Nat) : Int) 400 11 ⟨187, 187, 187⟩]) }

/-! ### Forecast-card data model and layout (src/main.py:151-248) -/

/-- One entry of the `daily` list (built at src/main.py:471-487); all
fields are pre-formatted strings. -/
structure DayForecast where
  date_short : String
  weekday : String
  high : String
  low : String
  day_text : String
  day_wind_dir : String
  day_wind_scale : String
  night_text : String
  night_wind_dir : String
  night_wind_scale : String
deriving DecidableEq, Repr

/-- The record `_render_weather_forecast` reads (built at
src/main.py:489-493). -/
structure ForecastData where
  path : String
  daily : List DayForecast
  last_update : String
deriving DecidableEq, Repr

/-- `daily_h = len(daily) * CARD_H + max(len(daily) - 1, 0) * GAP`
(src/main.py:161) with `CARD_H = 80`, `GAP = 10`. -/
def daily_h (daily : List DayForecast) : Nat :=
  daily.length * 80 + (max (daily.length - 1) 0) * 10

/-- `footer_y = daily_y + daily_h + 16` (src/main.py:164) with
`daily_y = GRAD_H = 130`. -/
def fc_footer_y (daily : List DayForecast) : Nat :=
  130 + daily_h daily + 16

/-- `total_h = footer_y + 20 + 24` (src/main.py:165). -/
def fc_total_h (daily : List DayForecast) : Nat :=
  fc_footer_y daily + 20 + 24

/-- `H = 20 + total_h + 20` (src/main.py:166): the forecast canvas height. -/
def fcH (daily : List DayForecast) : Nat :=
  20 + fc_total_h daily + 20

/-- The three colored temperature runs (src/main.py:209-213):
`"high°"` warm, `" / "` neutral, `"low°"` cool. -/
def temp_parts (day : DayForecast) : List (String × RGB) :=
  [(day.high ++ "°", ⟨231, 76, 60⟩),
   (" / ", ⟨204, 204, 204⟩),
   (day.low ++ "°", ⟨52, 152, 219⟩)]

/-- The accumulating text-run loop (src/main.py:216-218): draw each run
at the running `tx`, then advance `tx` by the run's measured width. -/
def run_ops (m : Metrics) (parts : List (String × RGB)) (tx : Int) (cy : Int) :
    List DrawOp :=
  match parts with
  | [] => []
  | (t, c) :: rest =>
    DrawOp.text tx (cy + 14) t 20 c :: run_ops m rest (tx + (m t 20 : Int)) cy

/-- The right-aligned temperature group (src/main.py:208-218): total
width `tw` of the three runs, starting at `tx = DX + DW - 18 - tw`. -/
def temp_run_ops (m : Metrics) (day : DayForecast) (cy : Int) : List DrawOp :=
  run_ops m (temp_parts day)
    (36 + 328 - 18 - ((temp_parts day).map fun p => (m p.1 20 : Int)).sum) cy

/-- One daily panel (src/main.py:194-235) at `cy = dy + i * (CARD_H + GAP)`
with `dy = card_y + daily_y = 150`. -/
def day_ops (m : Metrics) (i : Nat) (day : DayForecast) : List DrawOp :=
  DrawOp.roundedRect 36 (150 + (i : Int) * (80 + 10)) (36 + 328)
    (150 + (i : Int) * (80 + 10) + 80) 14 ⟨255, 255, 255⟩ ::
  DrawOp.text (36 + 18) (150 + (i : Int) * (80 + 10) + 16) day.date_short 15 ⟨51, 51, 51⟩ ::
  DrawOp.text (36 + 18 + (m day.date_short 15 : Int) + 8)
    (150 + (i : Int) * (80 + 10) + 18) day.weekday 12 ⟨153, 153, 153⟩ ::
  (temp_run_ops m day (150 + (i : Int) * (80 + 10)) ++
   [DrawOp.text (36 + 18) (150 + (i : Int) * (80 + 10) + 50)
      ("白天 " ++ day.day_text ++ " " ++ day.day_wind_dir ++ " " ++ day.day_wind_scale)
      13 ⟨102, 102, 102⟩,
    DrawOp.text
      (36 + 328 - 18 -
        (m ("夜间 " ++ day.night_text ++ " " ++ day.night_wind_dir ++ " " ++ day.night_wind_scale) 13 : Int))
      (150 + (i : Int) * (80 + 10) + 50)
      ("夜间 " ++ day.night_text ++ " " ++ day.night_wind_dir ++ " " ++ day.night_wind_scale)
      13 ⟨102, 102, 102⟩])

/-- The `for i, day in enumerate(daily)` loop (src/main.py:194). -/
def daily_ops (m : Metrics) (days : List DayForecast) (i : Nat) : List DrawOp :=
  match days with
  | [] => []
  | day :: rest => day_ops m i day ++ daily_ops m rest (i + 1)

/-- Embeds `_render_weather_forecast` (src/main.py:151-248). -/
def render_weather_forecast (m : Metrics) (d : ForecastData) : RenderOutput :=
  { width := 400
    height := fcH d.daily
    ops :=
      DrawOp.gradientPaste 20 20 360 130 ⟨102, 126, 234⟩ ⟨118, 75, 162⟩ 24 ::
      center_text m d.path (20 + 38) 400 14 ⟨230, 235, 245⟩ ::
      center_text m "未来7天天气预报" (20 + 62) 400 22 ⟨255, 255, 255⟩ ::
      (daily_ops m d.daily 0 ++
       [center_text m ("更新: " ++ d.last_update ++ " | 数据来源: 中国气象局")
          ((20 + fc_footer_y d.daily : Nat) : Int) 400 11 ⟨187, 187, 187⟩]) }

/-! ### Sample data used by witnesses -/

/-- A concrete now-card record. -/
def sampleNow : NowData :=
  ⟨"北京", "23", "25", "55", "北风", "3", "3级", "0", "1013", [], "2025-01-01 12:00"⟩

/-- A concrete forecast day. -/
def sampleDay : DayForecast :=
  ⟨"2/5", "周一", "25", "12", "晴", "北风", "3级", "多云", "南风", "2级"⟩

/-- A concrete 7-day forecast record. -/
def sampleForecast : ForecastData :=
  ⟨"北京", List.replicate 7 sampleDay, "2025-01-01"⟩

/-- A concrete font-metric environment: 10 px per measured string. -/
def sampleMetrics : Metrics := fun _ _ => 10

/-! ### Helper lemmas -/

/-- Floor division by a positive divisor is monotone in the numerator. -/
lemma fdiv_le_fdiv_of_le {x y D : Int} (hD : 0 < D) (hxy : x ≤ y) :
    Int.fdiv x D ≤ Int.fdiv y D := by
  rw [Int.fdiv_eq_ediv _ (le_of_lt hD), Int.fdiv_eq_ediv _ (le_of_lt hD)]
  exact Int.ediv_le_ediv hD hxy

/-- The floor-guarded divisor of `_draw_vgradient` is positive. -/
lemma grad_divisor_pos (h : Nat) : (0 : Int) < ((max (h - 1) 1 : Nat) : Int) := by
  exact_mod_cast Nat.lt_of_lt_of_le Nat.zero_lt_one (le_max_right _ _)

/-- One channel: row 0 equals the top channel value exactly. -/
lemma gradChannel_zero (a b : Int) (h : Nat) : gradChannel a b h 0 = a := by
  simp [gradChannel]

/-- One channel: for a region at least 2 rows tall, the bottom row equals
the bottom channel value exactly. -/
lemma gradChannel_last (a b : Int) {h : Nat} (hh : 2 ≤ h) :
    gradChannel a b h (h - 1) = b := by
  unfold gradChannel
  have hmax : max (h - 1) 1 = h - 1 := max_eq_left (by omega)
  have hne : ((h - 1 : Nat) : Int) ≠ 0 := by
    exact_mod_cast Nat.sub_ne_zero_of_lt (by omega)
  rw [hmax, Int.mul_fdiv_cancel _ hne]
  ring

/-- One channel: monotone nondecreasing in the row when `a ≤ b`. -/
lemma gradChannel_mono {a b : Int} (h : Nat) {i j : Nat} (hij : i ≤ j)
    (hab : a ≤ b) : gradChannel a b h i ≤ gradChannel a b h j := by
  unfold gradChannel
  refine add_le_add_left (fdiv_le_fdiv_of_le (grad_divisor_pos h) ?_) a
  have hba : (0 : Int) ≤ b - a := by linarith
  exact mul_le_mul_of_nonneg_left (by exact_mod_cast hij) hba

/-- One channel: monotone nonincreasing in the row when `b ≤ a`. -/
lemma gradChannel_anti {a b : Int} (h : Nat) {i j : Nat} (hij : i ≤ j)
    (hab : b ≤ a) : gradChannel a b h j ≤ gradChannel a b h i := by
  unfold gradChannel
  refine add_le_add_left (fdiv_le_fdiv_of_le (grad_divisor_pos h) ?_) a
  have hba : b - a ≤ 0 := by linarith
  exact mul_le_mul_of_nonpos_left (by exact_mod_cast hij) hba

/-! ### Claim theorems -/

/-- C2 counterexample: the claim asserts for every region height `h ≥ 1`
that the bottom row (row `h - 1`) equals `colorBottom` within ±1.  For a
1-row-tall region with `colorTop = (0,0,0)` and `colorBottom = (10,10,10)`,
the bottom row is row 0 and its red channel is 0, which differs from
`colorBottom`'s red channel by 10 > 1. -/
theorem vgradient_one_row_bottom_cex :
    gradColor ⟨0, 0, 0⟩ ⟨10, 10, 10⟩ 1 (1 - 1) = ⟨0, 0, 0⟩ ∧
    1 < ((10 : Int) - (gradColor ⟨0, 0, 0⟩ ⟨10, 10, 10⟩ 1 (1 - 1)).r).natAbs := by
  constructor <;> decide

/-- C2 (amended): in `_draw_vgradient` the row color is
`c1 + (c2 - c1) * row // max(h - 1, 1)` per channel; the top row (row 0)
equals `colorTop` exactly; for `h ≥ 2` the bottom row (row `h - 1`)
equals `colorBottom` exactly; each channel is monotone in the row index
(nondecreasing when `c1 ≤ c2`, nonincreasing when `c2 ≤ c1`); and a
1-row-tall region divides by the guard `max(h-1,1) = 1` — no division
error — its single row being `colorTop`. -/
theorem vgradient_interpolation (c1 c2 : RGB) (a b : Int) (h i j : Nat) :
    gradColor c1 c2 h 0 = c1 ∧
    (2 ≤ h → gradColor c1 c2 h (h - 1) = c2) ∧
    (h = 1 → gradColor c1 c2 h (h - 1) = c1) ∧
    (i ≤ j → a ≤ b → gradChannel a b h i ≤ gradChannel a b h j) ∧
    (i ≤ j → b ≤ a → gradChannel a b h j ≤ gradChannel a b h i) := by
  obtain ⟨r1, g1, b1⟩ := c1
  obtain ⟨r2, g2, b2⟩ := c2
  refine ⟨?_, ?_, ?_, fun hij hab => gradChannel_mono h hij hab,
    fun hij hab => gradChannel_anti h hij hab⟩
  · simp [gradColor, gradChannel_zero]
  · intro hh
    simp [gradColor, gradChannel_last _ _ hh]
  · intro hh
    subst hh
    simp [gradColor, gradChannel_zero]

/-- C2 witness: endpoints and monotonicity at concrete inputs. -/
theorem vgradient_interpolation_witness :
    gradColor ⟨0, 0, 0⟩ ⟨10, 20, 30⟩ 5 (5 - 1) = ⟨10, 20, 30⟩ ∧
    gradChannel 0 10 5 1 ≤ gradChannel 0 10 5 3 ∧
    gradChannel 10 0 5 3 ≤ gradChannel 10 0 5 1 :=
  ⟨(vgradient_interpolation ⟨0, 0, 0⟩ ⟨10, 20, 30⟩ 0 10 5 1 3).2.1 (by decide),
   (vgradient_interpolation ⟨0, 0, 0⟩ ⟨10, 20, 30⟩ 0 10 5 1 3).2.2.2.1 (by decide) (by decide),
   (vgradient_interpolation ⟨0, 0, 0⟩ ⟨10, 20, 30⟩ 10 0 5 1 3).2.2.2.2 (by decide) (by decide)⟩

/-- C1: the now-card canvas height is exactly
`baseHeight + (n > 0 ? alarmSectionHeight(n) : 0)` with
`baseHeight = 508` (the zero-alarm card) and
`alarmSectionHeight(n) = 34 + 20·n + 26` (padding 26 = 14 px panel
bottom padding + 12 px gap above the alarm panel), and it is strictly
monotone in the alarm count. -/
theorem now_card_height (a b : List AlarmEntry) :
    nowH a = 508 + (if 0 < a.length then 34 + 20 * a.length + 26 else 0) ∧
    (a.length < b.length → nowH a < nowH b) := by
  have key : ∀ c : List AlarmEntry,
      nowH c = 508 + (if 0 < c.length then 34 + 20 * c.length + 26 else 0) := by
    intro c
    cases c with
    | nil =>
      simp [nowH, now_card_h, now_footer_y, now_alarm_y, now_detail_y, nowDH, alarm_h]
    | cons x xs =>
      simp [nowH, now_card_h, now_footer_y, now_alarm_y, now_detail_y, nowDH, alarm_h]
      omega
  refine ⟨key a, fun hlt => ?_⟩
  rw [key a, key b]
  by_cases ha : 0 < a.length <;> by_cases hb : 0 < b.length <;>
    simp [ha, hb] <;> omega

/-- C1 witness: zero alarms give the 508 px base height, one alarm a
taller card. -/
theorem now_card_height_witness :
    nowH [] = 508 ∧ nowH [] < nowH [AlarmEntry.str "大风蓝色预警"] :=
  ⟨by simpa using (now_card_height [] []).1,
   (now_card_height [] [AlarmEntry.str "大风蓝色预警"]).2 (by decide)⟩

/-- C3: for any input with exactly 7 forecast days the forecast canvas
height is the constant 850 px (20 + (130 + 7·80 + 6·10 + 16 + 20 + 24) + 20),
independent of every text field and of the font metrics: only text
positions vary with content, never the canvas dimensions. -/
theorem forecast_height_constant (m1 m2 : Metrics) (d1 d2 : ForecastData)
    (h1 : d1.daily.length = 7) (h2 : d2.daily.length = 7) :
    (render_weather_forecast m1 d1).height = 850 ∧
    (render_weather_forecast m1 d1).height = (render_weather_forecast m2 d2).height ∧
    (render_weather_forecast m1 d1).width = (render_weather_forecast m2 d2).width := by
  refine ⟨?_, ?_, rfl⟩ <;>
    simp [render_weather_forecast, fcH, fc_total_h, fc_footer_y, daily_h, h1, h2]

/-- C3 witness: a concrete 7-day record renders at height 850. -/
theorem forecast_height_constant_witness :
    (render_weather_forecast sampleMetrics sampleForecast).height = 850 :=
  (forecast_height_constant sampleMetrics sampleMetrics sampleForecast
    sampleForecast (by rfl) (by rfl)).1

/-- C10: the forecast renderer is total over any daily-list length `n`,
with canvas height `230 + 80·n + 10·max(n-1, 0)`; an empty list yields a
complete 230 px card. -/
theorem forecast_height_total (m : Metrics) (d : ForecastData) :
    (render_weather_forecast m d).height =
      230 + 80 * d.daily.length + 10 * max (d.daily.length - 1) 0 := by
  simp [render_weather_forecast, fcH, fc_total_h, fc_footer_y, daily_h]
  omega

/-- C4: the now-card renderer is a pure function of the font metrics and
the input record (the source reads no clock or randomness), so two
invocations on the same record produce identical output. -/
theorem render_now_deterministic (m : Metrics) (d1 d2 : NowData)
    (h : d1 = d2) :
    render_weather_now m d1 = render_weather_now m d2 := by
  rw [h]

/-- C4 witness: identical output on a concrete record. -/
theorem render_now_deterministic_witness :
    render_weather_now sampleMetrics sampleNow =
      render_weather_now sampleMetrics sampleNow :=
  render_now_deterministic sampleMetrics sampleNow sampleNow rfl

/-- C7 counterexample: nothing clamps the measured value width, so with
a metric of 8 px per character a 40-character value starts at
`340 - 320 = 20`, left of the label inset `DX + 24 = 60`: the claim that
`rightEdge - textWidth(value) >= leftInset` holds for every value string
is false. -/
theorem detail_value_overlap_cex :
    detail_value_x (fun s _ => 8 * s.length)
      "aaaaaaaaaaaaaaaaaaaaaaaaaaaaaaaaaaaaaaaa" < 36 + 24 := by
  decide

/-- C7 (amended): the right-aligned value starts at
`panelRight - 24 - textWidth(value) = 340 - textWidth(value)` for every
value string, and this stays at or right of the label inset `60`
precisely when the measured width is at most 280 px (which holds for the
bundled font at the source's value strings, but not for arbitrarily long
values). -/
theorem detail_value_right_aligned (m : Metrics) (value : String)
    (hw : m value 15 ≤ 280) :
    detail_value_x m value = 340 - (m value 15 : Int) ∧
    (36 + 24 : Int) ≤ detail_value_x m value := by
  unfold detail_value_x
  constructor
  · ring
  · omega

/-- C7 witness: a 100 px wide value starts at 240, right of the inset. -/
theorem detail_value_right_aligned_witness :
    detail_value_x (fun _ _ => 100) "55%" = 340 - ((100 : Nat) : Int) ∧
    (36 + 24 : Int) ≤ detail_value_x (fun _ _ => 100) "55%" :=
  detail_value_right_aligned (fun _ _ => 100) "55%" (by decide)

/-- C8: font resolution is total — whenever loading the bundled font
fails with a catchable error, `_get_font` returns the built-in default
instead of raising — and a render invoked under any metrics (the
fallback font's included) still produces a full-size output image. -/
theorem font_fallback (env : FontEnv) (size : Nat) (e : FontLoadError)
    (he : env size = Except.error e) (m : Metrics) (d : NowData) :
    get_font env size = Font.default ∧
    (render_weather_now m d).width = 400 ∧
    0 < (render_weather_now m d).height := by
  refine ⟨?_, rfl, ?_⟩
  · simp [get_font, he]
  · show 0 < nowH d.alarms
    unfold nowH now_card_h
    omega

/-- C8 witness: an always-failing loader falls back to the default font
and a concrete render still has positive dimensions. -/
theorem font_fallback_witness :
    get_font (fun _ => Except.error FontLoadError.osError) 14 = Font.default ∧
    (render_weather_now sampleMetrics sampleNow).width = 400 ∧
    0 < (render_weather_now sampleMetrics sampleNow).height :=
  font_fallback (fun _ => Except.error FontLoadError.osError) 14
    FontLoadError.osError rfl sampleMetrics sampleNow

/-! ### Alarm-line lemmas for C5 -/

/-- The alarm loop draws exactly one line per alarm entry. -/
lemma alarm_line_ops_length (alarms : List AlarmEntry) (ay : Int) (j0 : Nat) :
    (alarm_line_ops alarms ay j0).length = alarms.length := by
  induction alarms generalizing j0 with
  | nil => rfl
  | cons a rest ih => simp [alarm_line_ops, ih]

/-- The `j`-th drawn alarm line, for a loop starting at index `j0`. -/
lemma alarm_line_ops_getElem (alarms : List AlarmEntry) (ay : Int) (j0 j : Nat) :
    (alarm_line_ops alarms ay j0)[j]? =
      alarms[j]?.map fun a =>
        DrawOp.text (36 + 18) (ay + 38 + ((j0 + j : Nat) : Int) * 20)
          (alarmText a) 12 ⟨191, 54, 12⟩ := by
  induction alarms generalizing j0 j with
  | nil => simp [alarm_line_ops]
  | cons a rest ih =>
    cases j with
    | zero => simp [alarm_line_ops]
    | succ k =>
      have h1 : (alarm_line_ops (a :: rest) ay j0)[k + 1]? =
          (alarm_line_ops rest ay (j0 + 1))[k]? := by
        simp [alarm_line_ops]
      have h2 : j0 + 1 + k = j0 + (k + 1) := by omega
      rw [h1, ih (j0 + 1) k, h2]
      simp

/-- C5: with a non-empty alarm list, the alarm loop draws exactly one
text line per entry; the `j`-th line sits at `x = DX + 18 = 54`,
`y = alarmTop + 38 + 20·j` (with `alarmTop = card_y + alarm_y = 440`),
its text being the entry itself for a string entry and the `title` field
for a structured entry; these lines appear inside the rendered op list;
and with 2 alarms the panel height is `34 + 40 + 14`. -/
theorem alarm_lines_layout (m : Metrics) (d : NowData) (hne : d.alarms ≠ []) :
    (alarm_line_ops d.alarms 440 0).length = d.alarms.length ∧
    (∀ (j : Nat) (a : AlarmEntry), d.alarms[j]? = some a →
      (alarm_line_ops d.alarms 440 0)[j]? =
        some (DrawOp.text 54 (440 + 38 + 20 * (j : Int)) (alarmText a) 12
          ⟨191, 54, 12⟩)) ∧
    (∃ pre post,
      (render_weather_now m d).ops = pre ++ alarm_line_ops d.alarms 440 0 ++ post) ∧
    (d.alarms.length = 2 → alarm_h d.alarms = 34 + 40 + 14) := by
  obtain ⟨a0, rest, hd⟩ : ∃ a0 rest, d.alarms = a0 :: rest := by
    cases hcc : d.alarms with
    | nil => exact absurd hcc hne
    | cons x xs => exact ⟨x, xs, rfl⟩
  have hay : ((20 + now_alarm_y : Nat) : Int) = 440 := by
    norm_num [now_alarm_y, now_detail_y, nowDH]
  refine ⟨alarm_line_ops_length _ _ _, ?_, ?_, ?_⟩
  · intro j a hj
    rw [alarm_line_ops_getElem, hj]
    simp
    ring
  · refine ⟨(DrawOp.gradientPaste 20 20 360 190 ⟨79, 172, 254⟩ ⟨30, 144, 255⟩ 24 ::
      center_text m d.path (20 + 45) 400 14 ⟨230, 235, 245⟩ ::
      center_text m (d.temperature ++ "°") (20 + 70) 400 64 ⟨255, 255, 255⟩ ::
      center_text m ("体感 " ++ d.feelst ++ "°C") (20 + 148) 400 14 ⟨230, 235, 245⟩ ::
      DrawOp.roundedRect 36 210 (36 + 328) (210 + (nowDH : Int)) 16 ⟨255, 255, 255⟩ ::
      detail_rows_ops m (now_rows d) 0 (now_rows d).length (210 + 20)) ++
      [DrawOp.roundedRect 36 440 (36 + 328) (440 + (alarm_h d.alarms : Int)) 12
         ⟨255, 243, 224⟩,
       DrawOp.text (36 + 18) (440 + 14) "预警信息" 13 ⟨230, 81, 0⟩],
      [center_text m ("更新: " ++ d.last_update ++ " | 数据来源: 中国气象局")
         ((20 + now_footer_y d.alarms : Nat) : Int) 400 11 ⟨187, 187, 187⟩], ?_⟩
    have hje : d.alarms.isEmpty = false := by rw [hd]; rfl
    simp [render_weather_now, alarm_section_ops, hje, hay]
  · intro h2
    rw [hd] at h2 ⊢
    simp [alarm_h] at h2 ⊢
    omega

/-- A concrete now-card record with 2 alarms (end-to-end scenario B). -/
def sampleNow2 : NowData :=
  { sampleNow with
    alarms := [AlarmEntry.str "大风蓝色预警", AlarmEntry.titled "暴雨黄色预警"] }

/-- C5 witness: two alarms give one line each and panel height
`34 + 40 + 14`, at lines `440 + 38` and `440 + 58`. -/
theorem alarm_lines_layout_witness :
    (alarm_line_ops sampleNow2.alarms 440 0).length = sampleNow2.alarms.length ∧
    alarm_h sampleNow2.alarms = 34 + 40 + 14 ∧
    (alarm_line_ops sampleNow2.alarms 440 0)[1]? =
      some (DrawOp.text 54 (440 + 38 + 20 * ((1 : Nat) : Int)) (alarmText (AlarmEntry.titled "暴雨黄色预警")) 12
        ⟨191, 54, 12⟩) :=
  ⟨(alarm_lines_layout sampleMetrics sampleNow2 (by decide)).1,
   (alarm_lines_layout sampleMetrics sampleNow2 (by decide)).2.2.2 (by decide),
   (alarm_lines_layout sampleMetrics sampleNow2 (by decide)).2.1 1
     (AlarmEntry.titled "暴雨黄色预警") (by decide)⟩

/-- C6: the three temperature runs are laid out contiguously — run `k`
starts where run `k-1` ends — the group starts at
`panelRight - 18 - (w0 + w1 + w2)` (with `panelRight = DX + DW = 364`,
so at `346 - total`), and the group's right edge lands exactly at
`panelRight - 18 = 346` for any high/low strings and any metrics. -/
theorem temp_runs_flush_right (m : Metrics) (day : DayForecast) (cy : Int) :
    temp_run_ops m day cy =
      [DrawOp.text
         (346 - ((m (day.high ++ "°") 20 : Int) + (m " / " 20 : Int) +
            (m (day.low ++ "°") 20 : Int)))
         (cy + 14) (day.high ++ "°") 20 ⟨231, 76, 60⟩,
       DrawOp.text
         (346 - ((m (day.high ++ "°") 20 : Int) + (m " / " 20 : Int) +
            (m (day.low ++ "°") 20 : Int)) + (m (day.high ++ "°") 20 : Int))
         (cy + 14) " / " 20 ⟨204, 204, 204⟩,
       DrawOp.text
         (346 - ((m (day.high ++ "°") 20 : Int) + (m " / " 20 : Int) +
            (m (day.low ++ "°") 20 : Int)) + (m (day.high ++ "°") 20 : Int) +
            (m " / " 20 : Int))
         (cy + 14) (day.low ++ "°") 20 ⟨52, 152, 219⟩] ∧
    346 - ((m (day.high ++ "°") 20 : Int) + (m " / " 20 : Int) +
        (m (day.low ++ "°") 20 : Int)) + (m (day.high ++ "°") 20 : Int) +
      (m " / " 20 : Int) + (m (day.low ++ "°") 20 : Int) = 346 := by
  constructor
  · simp only [temp_run_ops, temp_parts, run_ops, List.map_cons, List.map_nil,
      List.sum_cons, List.sum_nil]
    norm_num
    ring
  · ring
